import Mathlib

/-! Shallow embedding of the unity-mcp core: the Tool Gateway (`call_tool` in
src/unity_mcp_server.py), the RPC client (`send_command`, `connect`,
`disconnect` in src/unity_client.py) and the command catalog declared by
`list_tools` (src/unity_mcp_server.py).  Python dictionaries decoded from
JSON are modelled as association lists over a JSON value type; the CPython
object identity `id(params)` is an explicit `Nat` parameter; socket objects
are numbered by a fresh-socket counter so that socket replacement and
closing can be observed.
-/

namespace UnityMCP

/-- JSON-like values, as produced by `json.loads` and as passed in tool
argument mappings. Numbers are modelled as integers (no claim depends on
non-integral numerics). -/
inductive JValue where
  | null
  | bool (b : Bool)
  | num (n : Int)
  | str (s : String)
  | arr (xs : List JValue)
  | obj (fields : List (String × JValue))

/-- Python truthiness (`not x`, `if params`) of a decoded JSON value:
`None`, `False`, `0`, `""`, `[]` and `{}` are falsy. -/
def pyFalsy : JValue → Bool
  | .null => true
  | .bool b => !b
  | .num n => n == 0
  | .str s => s.isEmpty
  | .arr xs => xs.isEmpty
  | .obj fs => fs.isEmpty

/-- Models `v is None` for a decoded JSON value. -/
def isNull : JValue → Bool
  | .null => true
  | _ => false

/-- Dictionary lookup `d.get(key)` / `key in d`, modelled on the
association list (keys are unique in a Python dict; first match wins). -/
def lookupField : List (String × JValue) → String → Option JValue
  | [], _ => none
  | (k, v) :: rest, key => if k == key then some v else lookupField rest key

mutual

/-- Models `json.dumps` on a decoded value.  The source calls
`json.dumps(result, indent=2)`; the exact whitespace of the library
pretty-printer is abstracted to a compact rendering (no claim constrains
the serialized text of a success result). -/
def jsonDump : JValue → String
  | .null => "null"
  | .bool true => "true"
  | .bool false => "false"
  | .num n => toString n
  | .str s => "\"" ++ s ++ "\""
  | .arr xs => "[" ++ jsonDumpList xs ++ "]"
  | .obj fs => "\x7b" ++ jsonDumpFields fs ++ "\x7d"

/-- Comma-separated rendering of an array's elements. -/
def jsonDumpList : List JValue → String
  | [] => ""
  | [x] => jsonDump x
  | x :: xs => jsonDump x ++ ", " ++ jsonDumpList xs

/-- Comma-separated rendering of an object's fields. -/
def jsonDumpFields : List (String × JValue) → String
  | [] => ""
  | [(k, v)] => "\"" ++ k ++ "\": " ++ jsonDump v
  | (k, v) :: fs => "\"" ++ k ++ "\": " ++ jsonDump v ++ ", " ++ jsonDumpFields fs

end

/-- Models Python `str()` applied to a decoded JSON value, as used by the
f-string `f"Unity error: \x7berror_msg\x7d"` when the remote error message is
not a string (container rendering is approximated; every claim exercises
string messages only, where `str` is the identity). -/
def pyStr : JValue → String
  | .null => "None"
  | .bool true => "True"
  | .bool false => "False"
  | .num n => toString n
  | .str s => s
  | .arr xs => jsonDump (.arr xs)
  | .obj fs => jsonDump (.obj fs)

/-- The exceptions `send_command` (src/unity_client.py) can raise, each
carrying the message `str(e)` would yield. -/
inductive SendErr where
  /-- Models the `ConnectionError` raised by `connect` (line 37). -/
  | connectError (msg : String)
  /-- Models `Exception(f"Unity error: ...")` raised on an error envelope (line 101). -/
  | unityError (msg : String)
  /-- Models `Exception(f"Response is not in JSON format: ...")` (line 106). -/
  | notJson (msg : String)
  /-- Models `ConnectionError(f"Connection to Unity lost: ...")` on a socket error (line 110). -/
  | connLost (msg : String)
  /-- Models the `AttributeError` raised when the envelope's error field is not a dict, so
  `.get("message", ...)` fails (line 99); re-raised unchanged by line 113. -/
  | attrError (msg : String)

/-- Yields `str(e)` of a raised exception, as interpolated by the Tool Gateway. -/
def sendErrStr : SendErr → String
  | .connectError m | .unityError m | .notJson m | .connLost m | .attrError m => m

/-- State of `UnityClient` (src/unity_client.py): the current socket
(`None` or a socket numbered by the fresh-socket counter `nextSocket`),
the `connected` flag, and the record of sockets that were closed. -/
structure UnityClient where
  socket : Option Nat
  connected : Bool
  nextSocket : Nat
  closedSockets : List Nat

/-- Models `UnityClient.connect` (src/unity_client.py lines 28-37).  A fresh
socket object is created and assigned to `self.socket` first (line 31);
then the TCP connect either succeeds (`outcome = none`, sets
`connected = True`) or raises `ConnectionError` with the underlying
message `e` (`outcome = some e`), leaving `connected` untouched. -/
def connect (c : UnityClient) (outcome : Option String) :
    UnityClient × Except SendErr Unit :=
  let c' := { c with socket := some c.nextSocket, nextSocket := c.nextSocket + 1 }
  match outcome with
  | none => ({ c' with connected := true }, .ok ())
  | some e => (c', .error (.connectError ("Could not connect to Unity server: " ++ e)))

/-- Models `UnityClient.disconnect` (lines 39-48): if a socket exists and the
client is connected, close it and clear the state; otherwise do nothing
(the close itself is modelled as succeeding; a failure would only skip
the state reset). -/
def disconnect (c : UnityClient) : UnityClient :=
  match c.socket with
  | some sid =>
    if c.connected then
      { c with socket := none, connected := false,
               closedSockets := c.closedSockets ++ [sid] }
    else c
  | none => c

/-- The params value actually placed in the request envelope
(src/unity_client.py lines 69-73): `params = params or \x7b\x7d`, then if the
mapping contains a `"params"` key the envelope carries that key's value. -/
def effectiveParams (params : Option (List (String × JValue))) : JValue :=
  match params with
  | none => .obj []
  | some fs =>
    if fs.isEmpty then .obj []
    else
      match lookupField fs "params" with
      | some v => v
      | none => .obj fs

/-- JSON-RPC request envelope (lines 76-81). -/
structure Request where
  jsonrpc : String
  method : String
  params : JValue
  id : String

/-- Builds the request envelope (lines 76-81).  `addr` models the CPython
object identity `id(params)` of the params value; the correlation field is
`str(id(params)) if params else "0"`. -/
def mkRequest (method : String) (params : JValue) (addr : Nat) : Request :=
  { jsonrpc := "2.0"
    method := method
    params := params
    id := if pyFalsy params then "0" else toString addr }

/-- Behaviour of the remote side of one send/receive exchange. -/
inductive Wire where
  /-- Models a `socket.error` raised by `sendall` (caught at line 107). -/
  | sendFail (e : String)
  /-- Models a `socket.error` raised by `recv` (caught at line 107). -/
  | recvFail (e : String)
  /-- Indicates `recv` returns bytes on which `json.loads` raises `JSONDecodeError`
  with message `e` (caught at line 104). -/
  | badJson (e : String)
  /-- Indicates `recv` returns one decodable JSON object envelope with these fields
  (the wire protocol of spec section 6 exchanges one JSON object per
  response; every claim concerns object envelopes). -/
  | reply (envelope : List (String × JValue))

/-- Decoded-envelope handling (src/unity_client.py lines 98-103): if
`"error" in response`, extract `response.get("error", \x7b\x7d).get("message",
"Unknown error")` and raise `Exception(f"Unity error: ...")`; a non-dict
error value makes the second `.get` raise `AttributeError`; otherwise
return `response.get("result")` (i.e. `None` when absent).  The response's
`id` field is never consulted. -/
def processResponse (fields : List (String × JValue)) : Except SendErr JValue :=
  match lookupField fields "error" with
  | some (.obj efs) =>
    let msg :=
      match lookupField efs "message" with
      | some m => pyStr m
      | none => "Unknown error"
    .error (.unityError ("Unity error: " ++ msg))
  | some e => .error (.attrError (pyStr e))
  | none => .ok ((lookupField fields "result").getD .null)

/-- Everything observable about one `send_command` call. -/
structure SendOutcome where
  /-- the client state after the call -/
  client : UnityClient
  /-- the request envelope that was built (none if connect raised first) -/
  request : Option Request
  /-- number of `sendall` transmissions performed (attempted) -/
  sends : Nat
  /-- the returned result, or the exception raised -/
  result : Except SendErr JValue

/-- The send/receive body of `send_command` (lines 86-113), after the
request envelope `req` has been built: one `sendall`, one `recv`.
A socket error disconnects and raises `ConnectionError`; a JSON decode
failure raises without touching the state; a decoded envelope is handled
by `processResponse`, also without touching the state. -/
def sendReceive (c : UnityClient) (req : Request) (wire : Wire) : SendOutcome :=
  match wire with
  | .sendFail e =>
    { client := disconnect c, request := some req, sends := 1,
      result := .error (.connLost ("Connection to Unity lost: " ++ e)) }
  | .recvFail e =>
    { client := disconnect c, request := some req, sends := 1,
      result := .error (.connLost ("Connection to Unity lost: " ++ e)) }
  | .badJson e =>
    { client := c, request := some req, sends := 1,
      result := .error (.notJson ("Response is not in JSON format: " ++ e)) }
  | .reply env =>
    { client := c, request := some req, sends := 1, result := processResponse env }

/-- Models `UnityClient.send_command` (src/unity_client.py lines 50-113):
lazy connect when not connected or the socket is `None` (lines 65-66,
outside the try: a connect failure propagates before anything is sent),
params munging (lines 69-73), envelope construction (lines 76-81), then
one send/receive exchange.  `addr` models `id(params)`; `connectOutcome`
is the TCP connect behaviour if a connect is attempted; `wire` is the
remote behaviour of the exchange. -/
def send_command (c : UnityClient) (method : String)
    (params : Option (List (String × JValue))) (addr : Nat)
    (connectOutcome : Option String) (wire : Wire) : SendOutcome :=
  let go := fun (c' : UnityClient) =>
    sendReceive c' (mkRequest method (effectiveParams params) addr) wire
  if !c.connected || c.socket.isNone then
    match connect c connectOutcome with
    | (c', .ok _) => go c'
    | (c', .error e) => { client := c', request := none, sends := 0, result := .error e }
  else go c

/-- One element of the result list returned by the Tool Gateway
(`types.TextContent(type="text", text=...)`). -/
structure TextContent where
  type : String
  text : String

/-- Required-parameter lists declared by the tool descriptors built in
`list_tools` (src/unity_mcp_server.py lines 23-110): the `required` entry
of each tool's `inputSchema`. -/
def requiredFields (name : String) : List String :=
  if name == "get_object_info" then ["object_name"]
  else if name == "create_object" then ["type"]
  else if name == "modify_object" then ["name"]
  else if name == "delete_object" then ["name"]
  else if name == "set_material" then ["object_name"]
  else if name == "execute_unity_code" then ["code"]
  else []

/-- Array arity constraints `(minItems, maxItems)` declared by the tool
descriptors built in `list_tools` (lines 44-98). -/
def arrayArity (name key : String) : Option (Nat × Nat) :=
  if name == "create_object" &&
      (key == "location" || key == "rotation" || key == "scale") then some (3, 3)
  else if name == "modify_object" &&
      (key == "location" || key == "rotation" || key == "scale") then some (3, 3)
  else if name == "set_material" && key == "color" then some (3, 4)
  else none

/-- One required-field check of `call_tool`: the pattern
`if field not in arguments or not arguments[field]: raise ValueError(msg)`
(src/unity_mcp_server.py lines 152-154, 163-165, 169-171, 175-177, 185-187). -/
def checkRequired (args : List (String × JValue)) (field msg : String) :
    Except String Unit :=
  match lookupField args field with
  | none => .error msg
  | some v => if pyFalsy v then .error msg else .ok ()

/-- The 3-vector check of `call_tool` for one of `location`, `rotation`,
`scale` (lines 155-159): applied only when the key is present with a
non-`None` value; rejects non-lists and lists whose length is not 3. -/
def checkVec3 (args : List (String × JValue)) (key : String) :
    Except String Unit :=
  match lookupField args key with
  | none => .ok ()
  | some v =>
    if isNull v then .ok ()
    else
      match v with
      | .arr xs =>
        if xs.length == 3 then .ok ()
        else .error ("\x27" ++ key ++ "\x27 parameter should be a numeric array with 3 elements")
      | _ => .error ("\x27" ++ key ++ "\x27 parameter should be a numeric array with 3 elements")

/-- The color check of `call_tool` for `set_material` (lines 178-181):
applied only when `color` is present with a non-`None` value; rejects
non-lists and lists whose length is neither 3 nor 4. -/
def checkColor (args : List (String × JValue)) : Except String Unit :=
  match lookupField args "color" with
  | none => .ok ()
  | some v =>
    if isNull v then .ok ()
    else
      match v with
      | .arr xs =>
        if xs.length == 3 || xs.length == 4 then .ok ()
        else .error "Color parameter should be a numeric array with 3 (RGB) or 4 (RGBA) elements"
      | _ => .error "Color parameter should be a numeric array with 3 (RGB) or 4 (RGBA) elements"

/-- The validation phase of `call_tool` (src/unity_mcp_server.py lines
118-187), returning the argument mapping that will be forwarded to
`send_command`, or the message of the `ValueError` raised.  Lines 131-148
(coercion of a *string* `arguments` value) cannot fire here: `arguments`
is typed and modelled as a mapping.  Note there is no validation branch
for `modify_object`, and no lookup of the name in any catalog. -/
def validate_tool_arguments (name : String)
    (arguments : Option (List (String × JValue))) :
    Except String (List (String × JValue)) :=
  let argsEmpty := match arguments with | none => true | some a => a.isEmpty
  if name != "get_scene_info" && argsEmpty then
    .error ("Parameters for " ++ name ++ " are empty or null")
  else
    let args := arguments.getD []
    let checks : Except String Unit := do
      if name == "create_object" then
        checkRequired args "type" "Missing or empty \x27type\x27 parameter for create_object"
        checkVec3 args "location"
        checkVec3 args "rotation"
        checkVec3 args "scale"
      if name == "execute_unity_code" then
        checkRequired args "code" "Missing or empty \x27code\x27 parameter for execute_unity_code"
      if name == "get_object_info" then
        checkRequired args "object_name" "Missing or empty \x27object_name\x27 parameter for get_object_info"
      if name == "set_material" then
        checkRequired args "object_name" "Missing or empty \x27object_name\x27 parameter for set_material"
        checkColor args
      if name == "delete_object" then
        checkRequired args "name" "Missing or empty \x27name\x27 parameter for delete_object"
    match checks with
    | .ok _ => .ok args
    | .error e => .error e

/-- Everything observable about one Tool Gateway invocation. -/
structure ToolOutcome where
  /-- the RPC client state after the call -/
  client : UnityClient
  /-- how many times `unity.send_command` was invoked -/
  sendCalls : Nat
  /-- the argument mapping forwarded to `send_command`, if any -/
  sentArguments : Option (List (String × JValue))
  /-- the `TextContent` list returned to the outer interface -/
  result : List TextContent

/-- The Tool Gateway `call_tool` (src/unity_mcp_server.py lines 112-199):
validate, forward to `unity.send_command`, serialize the result with
`json.dumps`; the whole body sits in one `try`, and any exception `e` is
converted into the single text result
`f"Error calling tool \x7bname\x7d: \x7bstr(e)\x7d"`. -/
def call_tool (c : UnityClient) (name : String)
    (arguments : Option (List (String × JValue))) (addr : Nat)
    (connectOutcome : Option String) (wire : Wire) : ToolOutcome :=
  match validate_tool_arguments name arguments with
  | .error msg =>
    { client := c, sendCalls := 0, sentArguments := none,
      result := [⟨"text", "Error calling tool " ++ name ++ ": " ++ msg⟩] }
  | .ok args =>
    let s := send_command c name (some args) addr connectOutcome wire
    { client := s.client, sendCalls := 1, sentArguments := some args,
      result :=
        match s.result with
        | .ok v => [⟨"text", jsonDump v⟩]
        | .error e => [⟨"text", "Error calling tool " ++ name ++ ": " ++ sendErrStr e⟩] }

/-- A connected client holding socket 0, with one fresh socket number
available: the canonical state for concrete evaluations. -/
def client0 : UnityClient :=
  { socket := some 0, connected := true, nextSocket := 1, closedSockets := [] }

/-- Prepending a field with a different key does not change a lookup. -/
theorem lookupField_cons_ne (k key : String) (v : JValue)
    (rest : List (String × JValue)) (h : (k == key) = false) :
    lookupField ((k, v) :: rest) key = lookupField rest key := by
  simp [lookupField, h]

/-- The envelope handler never consults an `"id"` field. -/
theorem processResponse_cons_id (v : JValue) (env : List (String × JValue)) :
    processResponse (("id", v) :: env) = processResponse env := by
  unfold processResponse
  rw [show lookupField (("id", v) :: env) "error" = lookupField env "error" from rfl,
      show lookupField (("id", v) :: env) "result" = lookupField env "result" from rfl]

/-- C1: for every tool name, argument mapping, client state and remote
behaviour, `call_tool` returns exactly one textual content element and
never propagates an exception; a validation failure and any exception
raised by `send_command` are both converted into the text
`"Error calling tool " ++ name ++ ": " ++ message`, which carries the
command name and the underlying message. -/
theorem c1_call_tool_never_raises (c : UnityClient) (name : String)
    (arguments : Option (List (String × JValue))) (addr : Nat)
    (co : Option String) (wire : Wire) :
    (∃ t : String, (call_tool c name arguments addr co wire).result = [⟨"text", t⟩]) ∧
    (∀ msg, validate_tool_arguments name arguments = .error msg →
      (call_tool c name arguments addr co wire).result
        = [⟨"text", "Error calling tool " ++ name ++ ": " ++ msg⟩]) ∧
    (∀ args e, validate_tool_arguments name arguments = .ok args →
      (send_command c name (some args) addr co wire).result = .error e →
      (call_tool c name arguments addr co wire).result
        = [⟨"text", "Error calling tool " ++ name ++ ": " ++ sendErrStr e⟩]) := by
  refine ⟨?_, ?_, ?_⟩
  · cases hv : validate_tool_arguments name arguments with
    | error msg =>
      exact ⟨"Error calling tool " ++ name ++ ": " ++ msg, by simp [call_tool, hv]⟩
    | ok args =>
      cases hr : (send_command c name (some args) addr co wire).result with
      | ok v => exact ⟨jsonDump v, by simp [call_tool, hv, hr]⟩
      | error e =>
        exact ⟨"Error calling tool " ++ name ++ ": " ++ sendErrStr e,
          by simp [call_tool, hv, hr]⟩
  · intro msg hv
    simp [call_tool, hv]
  · intro args e hv hr
    simp [call_tool, hv, hr]

/-- Witness for C1 at a concrete failing input: `delete_object` invoked
without its `name` parameter yields the uniform error text. -/
theorem c1_witness :
    (call_tool client0 "delete_object" (some [("x", JValue.num 1)]) 5 none
        (.reply [])).result
      = [⟨"text", "Error calling tool delete_object: Missing or empty \x27name\x27 parameter for delete_object"⟩] :=
  (c1_call_tool_never_raises client0 "delete_object" (some [("x", JValue.num 1)]) 5 none
    (.reply [])).2.1
    "Missing or empty \x27name\x27 parameter for delete_object" rfl

/-- C2 (code evaluated at the failing input): the descriptor built by
`list_tools` declares `name` required for `modify_object`, the supplied
value `""` is empty in Python's sense, yet `call_tool` forwards the
arguments to `unity.send_command` and returns the remote result instead
of a validation failure — while the sibling command `delete_object`
rejects the very same arguments. -/
theorem c2_modify_object_required_not_enforced :
    ("name" ∈ requiredFields "modify_object") ∧
    pyFalsy (JValue.str "") = true ∧
    (call_tool client0 "modify_object" (some [("name", JValue.str "")]) 5 none
        (.reply [("result", JValue.str "ok")])).sendCalls = 1 ∧
    (call_tool client0 "modify_object" (some [("name", JValue.str "")]) 5 none
        (.reply [("result", JValue.str "ok")])).sentArguments
      = some [("name", JValue.str "")] ∧
    (call_tool client0 "modify_object" (some [("name", JValue.str "")]) 5 none
        (.reply [("result", JValue.str "ok")])).result = [⟨"text", "\"ok\""⟩] ∧
    validate_tool_arguments "delete_object" (some [("name", JValue.str "")])
      = .error "Missing or empty \x27name\x27 parameter for delete_object" := by
  refine ⟨?_, rfl, rfl, rfl, rfl, rfl⟩
  simp [requiredFields]

/-- C3 (code evaluated at the failing input): the descriptor built by
`list_tools` declares arity exactly 3 for `modify_object`'s `location`,
yet `call_tool` forwards a 2-element `location` to `unity.send_command`
instead of failing validation — while `create_object` rejects the very
same 2-element array. -/
theorem c3_modify_object_arity_not_enforced :
    arrayArity "modify_object" "location" = some (3, 3) ∧
    (call_tool client0 "modify_object"
        (some [("name", JValue.str "Box1"),
               ("location", JValue.arr [JValue.num 1, JValue.num 2])]) 6 none
        (.reply [("result", JValue.str "ok")])).sendCalls = 1 ∧
    (call_tool client0 "modify_object"
        (some [("name", JValue.str "Box1"),
               ("location", JValue.arr [JValue.num 1, JValue.num 2])]) 6 none
        (.reply [("result", JValue.str "ok")])).sentArguments
      = some [("name", JValue.str "Box1"),
              ("location", JValue.arr [JValue.num 1, JValue.num 2])] ∧
    validate_tool_arguments "create_object"
        (some [("type", JValue.str "CUBE"),
               ("location", JValue.arr [JValue.num 1, JValue.num 2])])
      = .error "\x27location\x27 parameter should be a numeric array with 3 elements" ∧
    validate_tool_arguments "set_material"
        (some [("object_name", JValue.str "Box1"),
               ("color", JValue.arr [JValue.num 1, JValue.num 2])])
      = .error "Color parameter should be a numeric array with 3 (RGB) or 4 (RGBA) elements" :=
  ⟨rfl, rfl, rfl, rfl, rfl⟩

/-- C4 counterexample: two distinct calls — different methods, different
`id(params)` identities — both with empty params receive the same
correlation identifier `"0"`, so identifiers are not distinct per call. -/
theorem c4_counterexample :
    (mkRequest "get_scene_info" (effectiveParams (some [])) 100).id
      = (mkRequest "create_object" (effectiveParams none) 200).id ∧
    (mkRequest "get_scene_info" (effectiveParams (some [])) 100).id = "0" :=
  ⟨rfl, rfl⟩

/-- C4 amended: the correlation identifier of a request envelope is `"0"`
whenever the munged params value is Python-falsy (in particular for empty
or absent params), and `str(id(params))` otherwise; it is a function of
the params value and its object identity, not a fresh token per call. -/
theorem c4_request_id_scheme (m : String)
    (p : Option (List (String × JValue))) (addr : Nat) :
    (pyFalsy (effectiveParams p) = true →
      (mkRequest m (effectiveParams p) addr).id = "0") ∧
    (pyFalsy (effectiveParams p) = false →
      (mkRequest m (effectiveParams p) addr).id = toString addr) := by
  constructor <;> intro h <;> simp [mkRequest, h]

/-- Witness for C4 at concrete inputs: empty params give id `"0"`,
truthy params give the stringified object identity. -/
theorem c4_witness :
    (mkRequest "foo" (effectiveParams (some [])) 42).id = "0" ∧
    (mkRequest "foo" (effectiveParams (some [("a", JValue.num 1)])) 42).id = "42" :=
  ⟨(c4_request_id_scheme "foo" (some []) 42).1 rfl,
   (c4_request_id_scheme "foo" (some [("a", JValue.num 1)]) 42).2 rfl⟩

/-- C5: round-trip — for every method `M` and params mapping `P`, against
a stub remote replying `\x7bresult: P\x7d`, `send_command` returns a value
deep-equal to `P`; both from an already-connected state (any socket, any
connect behaviour, unused) and from a disconnected state through a
successful lazy connect. -/
theorem c5_roundtrip (sid nx : Nat) (closed : List Nat) (M : String)
    (P : List (String × JValue)) (addr : Nat) (co : Option String)
    (sk : Option Nat) :
    ((send_command ⟨some sid, true, nx, closed⟩ M (some P) addr co
        (.reply [("result", JValue.obj P)])).result = .ok (JValue.obj P)) ∧
    ((send_command ⟨sk, false, nx, closed⟩ M (some P) addr none
        (.reply [("result", JValue.obj P)])).result = .ok (JValue.obj P)) :=
  ⟨rfl, rfl⟩

/-- C6 counterexample: on an error envelope whose remote message is
`"object not found"`, the exception raised by `send_command` carries
`"Unity error: object not found"` — not the remote message verbatim. -/
theorem c6_counterexample :
    ((send_command client0 "get_object_info"
        (some [("object_name", JValue.str "Box1")]) 9 none
        (.reply [("error", JValue.obj [("message", JValue.str "object not found")])])).result
      = .error (.unityError "Unity error: object not found")) ∧
    ("Unity error: object not found" ≠ "object not found") :=
  ⟨rfl, by decide⟩

/-- C6 amended: whenever the decoded envelope carries an error object with
a string message `msg`, `send_command` raises an exception whose message
is `"Unity error: " ++ msg` (the remote message prefixed, not verbatim),
and exactly one transmission is performed — the call is not retried. -/
theorem c6_error_envelope_message (sid nx : Nat) (closed : List Nat)
    (M : String) (P : Option (List (String × JValue))) (addr : Nat)
    (co : Option String) (env efs : List (String × JValue)) (msg : String)
    (he : lookupField env "error" = some (JValue.obj efs))
    (hm : lookupField efs "message" = some (JValue.str msg)) :
    ((send_command ⟨some sid, true, nx, closed⟩ M P addr co (.reply env)).result
      = .error (.unityError ("Unity error: " ++ msg))) ∧
    (send_command ⟨some sid, true, nx, closed⟩ M P addr co (.reply env)).sends = 1 := by
  refine ⟨?_, rfl⟩
  show processResponse env = .error (.unityError ("Unity error: " ++ msg))
  have step1 : processResponse env
      = .error (.unityError ("Unity error: "
          ++ (match lookupField efs "message" with
              | some m => pyStr m
              | none => "Unknown error"))) := by
    unfold processResponse
    rw [he]
  rw [hm] at step1
  exact step1

/-- Witness for C6 at a concrete error envelope. -/
theorem c6_witness :
    ((send_command ⟨some 0, true, 1, []⟩ "get_object_info"
        (some [("object_name", JValue.str "Box1")]) 9 none
        (.reply [("id", JValue.str "0"),
                 ("error", JValue.obj [("message", JValue.str "missing")])])).result
      = .error (.unityError "Unity error: missing")) ∧
    (send_command ⟨some 0, true, 1, []⟩ "get_object_info"
        (some [("object_name", JValue.str "Box1")]) 9 none
        (.reply [("id", JValue.str "0"),
                 ("error", JValue.obj [("message", JValue.str "missing")])])).sends = 1 :=
  c6_error_envelope_message 0 1 [] "get_object_info"
    (some [("object_name", JValue.str "Box1")]) 9 none
    [("id", JValue.str "0"), ("error", JValue.obj [("message", JValue.str "missing")])]
    [("message", JValue.str "missing")] "missing" rfl rfl

/-- C7 counterexample: the pending request carries id `"0"` (empty
params), the stub replies with id `"999"`, and the client accepts the
response as the answer — it returns the result instead of rejecting or
flagging the mismatch. -/
theorem c7_counterexample :
    ((send_command client0 "ping" none 7 none
        (.reply [("id", JValue.str "999"), ("result", JValue.str "pong")])).result
      = .ok (JValue.str "pong")) ∧
    ((send_command client0 "ping" none 7 none
        (.reply [("id", JValue.str "999"), ("result", JValue.str "pong")])).request
      = some (mkRequest "ping" (JValue.obj []) 7)) ∧
    (mkRequest "ping" (JValue.obj []) 7).id = "0" ∧
    (("999" : String) ≠ "0") :=
  ⟨rfl, rfl, rfl, by decide⟩

/-- C7 amended: the client never inspects the response's correlation
identifier — the outcome of a call over a connected client is unchanged
by any `"id"` field of the response envelope, so every well-formed
response is accepted as the answer to the pending call. -/
theorem c7_id_ignored (sid nx : Nat) (closed : List Nat) (M : String)
    (P : Option (List (String × JValue))) (addr : Nat) (co : Option String)
    (v : JValue) (env : List (String × JValue)) :
    (send_command ⟨some sid, true, nx, closed⟩ M P addr co
        (.reply (("id", v) :: env))).result
      = (send_command ⟨some sid, true, nx, closed⟩ M P addr co (.reply env)).result := by
  show processResponse (("id", v) :: env) = processResponse env
  exact processResponse_cons_id v env

/-- C8 counterexample: on a client that is already connected with socket
0, calling `connect` again installs a brand-new socket 1 and closes
nothing — it is not a no-op and the previous socket is leaked. -/
theorem c8_counterexample :
    client0.connected = true ∧
    client0.socket = some 0 ∧
    (connect client0 none).1.socket = some 1 ∧
    (connect client0 none).1.socket ≠ client0.socket ∧
    (connect client0 none).1.closedSockets = [] :=
  ⟨rfl, rfl, rfl, by decide, rfl⟩

/-- C8 amended: calling `connect` while already connected is not a no-op:
it unconditionally creates a fresh socket and installs it as the current
socket, leaves the client connected, and never closes the previously held
socket (which is thereby leaked). -/
theorem c8_connect_replaces_socket (sid nx : Nat) (closed : List Nat)
    (h : sid < nx) :
    ((connect ⟨some sid, true, nx, closed⟩ none).1.socket = some nx) ∧
    ((connect ⟨some sid, true, nx, closed⟩ none).1.socket
      ≠ (⟨some sid, true, nx, closed⟩ : UnityClient).socket) ∧
    ((connect ⟨some sid, true, nx, closed⟩ none).1.connected = true) ∧
    ((connect ⟨some sid, true, nx, closed⟩ none).1.closedSockets = closed) := by
  refine ⟨rfl, ?_, rfl, rfl⟩
  show some nx ≠ some sid
  simp only [ne_eq, Option.some.injEq]
  omega

/-- Witness for C8 at the concrete connected client holding socket 0. -/
theorem c8_witness :
    ((connect ⟨some 0, true, 1, []⟩ none).1.socket = some 1) ∧
    ((connect ⟨some 0, true, 1, []⟩ none).1.socket
      ≠ (⟨some 0, true, 1, []⟩ : UnityClient).socket) ∧
    ((connect ⟨some 0, true, 1, []⟩ none).1.connected = true) ∧
    ((connect ⟨some 0, true, 1, []⟩ none).1.closedSockets = []) :=
  c8_connect_replaces_socket 0 1 [] (by decide)

/-- C9: from a connected state, a decoded reply — including an error
envelope — and a JSON decode failure leave the client state completely
unchanged (still connected, same socket); a socket error during send or
during receive transitions the client to disconnected. -/
theorem c9_nontransport_failures_preserve_state (sid nx : Nat)
    (closed : List Nat) (M : String) (P : Option (List (String × JValue)))
    (addr : Nat) (co : Option String) :
    (∀ env, (send_command ⟨some sid, true, nx, closed⟩ M P addr co
        (.reply env)).client = ⟨some sid, true, nx, closed⟩) ∧
    (∀ e, (send_command ⟨some sid, true, nx, closed⟩ M P addr co
        (.badJson e)).client = ⟨some sid, true, nx, closed⟩) ∧
    (∀ e, (send_command ⟨some sid, true, nx, closed⟩ M P addr co
        (.sendFail e)).client.connected = false) ∧
    (∀ e, (send_command ⟨some sid, true, nx, closed⟩ M P addr co
        (.recvFail e)).client.connected = false) :=
  ⟨fun _ => rfl, fun _ => rfl, fun _ => rfl, fun _ => rfl⟩

/-- C10: array element types are never validated — for arbitrary element
values `x y z w` (of any JSON type, e.g. strings), `create_object` with a
3-element `location` and `set_material` with a 4-element `color` pass
validation and the arguments are forwarded to the remote host verbatim. -/
theorem c10_array_elements_not_validated (x y z w : JValue)
    (co : Option String) (wire : Wire) :
    (validate_tool_arguments "create_object"
        (some [("type", JValue.str "CUBE"), ("location", JValue.arr [x, y, z])])
      = .ok [("type", JValue.str "CUBE"), ("location", JValue.arr [x, y, z])]) ∧
    ((call_tool client0 "create_object"
        (some [("type", JValue.str "CUBE"), ("location", JValue.arr [x, y, z])])
        3 co wire).sentArguments
      = some [("type", JValue.str "CUBE"), ("location", JValue.arr [x, y, z])]) ∧
    (validate_tool_arguments "set_material"
        (some [("object_name", JValue.str "Box1"), ("color", JValue.arr [x, y, z, w])])
      = .ok [("object_name", JValue.str "Box1"), ("color", JValue.arr [x, y, z, w])]) ∧
    ((call_tool client0 "set_material"
        (some [("object_name", JValue.str "Box1"), ("color", JValue.arr [x, y, z, w])])
        3 co wire).sentArguments
      = some [("object_name", JValue.str "Box1"), ("color", JValue.arr [x, y, z, w])]) :=
  ⟨rfl, rfl, rfl, rfl⟩

end UnityMCP
